import Mathlib

/-!
Shallow embedding of `src/stream/write_buffer.go` (package `stream` of the
ortelius repository): the `bufferedWriter` batching write path.

Modelling conventions:
* A payload (`[]byte`) is a `List Nat`; time is `Nat` milliseconds.
* The Kafka client (`kafka.Writer.WriteMessages`) is an external collaborator;
  each publish attempt's outcome is supplied by an oracle `atk : Nat → Bool`
  (`atk i = true` means attempt number `i` of a flush returns a nil error).
* `hashing.ComputeHash256` is an external fixed-output digest; it is modelled
  as an abstract parameter `hash : Payload → List Nat`.
* The worker `loop` is modelled as a step function on its local state
  (`lastFlush`, the live prefix `buffer[:bufferSize]` as a `List`),
  driven by the events of its `select`: a message received from the inbound
  channel, or a ticker tick, each carrying the value of `time.Now()`.
* `flush` records its observable behaviour in a `FlushReport`: the ordered
  trace of publish calls and retry sleeps, plus the telemetry deltas.
-/

namespace WriteBuffer

/-- Constant `defaultBufferedWriterSize = 256` (`write_buffer.go` line 19). -/
def defaultBufferedWriterSize : Nat := 256

/-- Constant `defaultBufferedWriterMsgQueueSize = defaultBufferedWriterSize * 5` (line 20). -/
def defaultBufferedWriterMsgQueueSize : Nat := defaultBufferedWriterSize * 5

/-- Constant `defaultWriteTimeout = 1 * time.Minute`, in milliseconds (line 21). -/
def defaultWriteTimeoutMs : Nat := 60000

/-- Constant `defaultWriteRetry = 10` (line 22). -/
def defaultWriteRetry : Nat := 10

/-- Constant `defaultWriteRetrySleep = 1 * time.Second`, in milliseconds (line 23). -/
def defaultWriteRetrySleepMs : Nat := 1000

/-- Constant `defaultBufferedWriterFlushInterval = 1 * time.Second`, in ms (line 26). -/
def defaultBufferedWriterFlushIntervalMs : Nat := 1000

/-- A producer payload: an opaque byte sequence (`[]byte`). -/
abbrev Payload := List Nat

/-- Type `kafka.Message`, restricted to the fields the code populates:
`Key` and `Value` (lines 98-101). -/
structure KafkaMessage where
  key : List Nat
  value : Payload
  deriving Repr, DecidableEq

/-- Lines 98-101 of `flush`: `buffer2[bpos] = kafka.Message{}`,
`.Value = *b`, `.Key = hashing.ComputeHash256(buffer2[bpos].Value)`. -/
def mkMessage (hash : Payload → List Nat) (b : Payload) : KafkaMessage :=
  { key := hash b, value := b }

/-- An observable event of one `flush` call: a `wb.writer.WriteMessages`
call carrying its batch, or a `time.Sleep` of the given milliseconds. -/
inductive FlushEv where
  | publish (batch : List KafkaMessage)
  | sleepMs (d : Nat)
  deriving Repr, DecidableEq

/-- The observable outcome of one `flush` call: the ordered trace of publish
attempts and retry sleeps, the deltas applied to the success and failure
counters, and whether the process-millis collector observed a duration. -/
structure FlushReport where
  trace : List FlushEv
  succInc : Nat
  failInc : Nat
  millisObserved : Bool
  deriving Repr, DecidableEq

/-- The batches submitted by the publish calls of a flush trace. -/
def publishCalls : List FlushEv → List (List KafkaMessage)
  | [] => []
  | .publish b :: tr => b :: publishCalls tr
  | .sleepMs _ :: tr => publishCalls tr

/-- The retry loop of `flush` (lines 122-130):
`for icnt := 0; icnt < defaultWriteRetry; icnt++ { err = wm(buffer2, bufferSize);
if err == nil { break }; …; time.Sleep(defaultWriteRetrySleep) }`.
`icnt` is the current attempt index, `fuel` the remaining iterations,
`errNil` the current value of `err == nil` (`var err error` starts nil).
Returns the event trace and the final value of `err == nil`. -/
def retryLoop (atk : Nat → Bool) (batch : List KafkaMessage) :
    Nat → Nat → Bool → List FlushEv × Bool
  | _, 0, errNil => ([], errNil)
  | icnt, fuel + 1, _ =>
    if atk icnt then ([.publish batch], true)
    else
      (.publish batch :: .sleepMs defaultWriteRetrySleepMs ::
         (retryLoop atk batch (icnt + 1) fuel false).1,
       (retryLoop atk batch (icnt + 1) fuel false).2)

/-- Modelled from the spec: the telemetry collectors live in
`services/metrics`, which is not under `src/`; per the spec's telemetry
collaborator contract the success and failure counters are "incremented once
per flush attempt outcome".  `ok` is whether the flush's final `err` is nil
(line 132): on success the success counter is incremented, on failure
`collectors.Error()` routes the increment to the failure counter. -/
def successFailDelta (ok : Bool) : Nat × Nat :=
  if ok then (1, 0) else (0, 1)

/-- The worker's local flush state: `lastFlush` (line 82) and the live prefix
`buffer[:bufferSize]` of the accumulation buffer (lines 84-85);
`bufferSize` is `buffer.length`. -/
structure LoopState where
  lastFlush : Nat
  buffer : List Payload
  deriving Repr, DecidableEq

/-- The `flush` closure (lines 89-138), as a pure function of the state and of
`now = time.Now()`.  The deferred `lastFlush = time.Now()` runs on every path;
an empty buffer returns before building messages or collectors; otherwise the
batch is built with `mkMessage`, the retry loop runs, the (spec-modelled)
counters are incremented once for the batch outcome, and `bufferSize = 0`. -/
def flush (hash : Payload → List Nat) (atk : Nat → Bool)
    (st : LoopState) (now : Nat) : LoopState × FlushReport :=
  if st.buffer.length = 0 then
    ({ st with lastFlush := now }, { trace := [], succInc := 0, failInc := 0, millisObserved := false })
  else
    let batch := st.buffer.map (mkMessage hash)
    let r := retryLoop atk batch 0 defaultWriteRetry true
    let d := successFailDelta r.2
    ({ lastFlush := now, buffer := [] },
     { trace := r.1, succInc := d.1, failInc := d.2, millisObserved := true })

/-- An iteration of the worker's `select` (lines 147-167): a message received
from the inbound channel (`ok = true`), or a ticker tick; each carries the
value `time.Now()` would yield during that iteration. -/
inductive LoopEvent where
  | recv (msg : Payload) (now : Nat)
  | tick (now : Nat)
  deriving Repr, DecidableEq

/-- One iteration of the worker loop body (lines 146-168).  On a received
message: if `bufferSize >= size`, `flush()` first, then append the message.
On a tick: `flush()` only if `time.Now().After(lastFlush.Add(flushInterval))`.
Returns the new state and `some` report when `flush` was invoked. -/
def loopStep (hash : Payload → List Nat) (atk : Nat → Bool)
    (size interval : Nat) (st : LoopState) :
    LoopEvent → LoopState × Option FlushReport
  | .recv msg now =>
    if size ≤ st.buffer.length then
      let fr := flush hash atk st now
      ({ fr.1 with buffer := fr.1.buffer ++ [msg] }, some fr.2)
    else
      ({ st with buffer := st.buffer ++ [msg] }, none)
  | .tick now =>
    if st.lastFlush + interval < now then
      let fr := flush hash atk st now
      (fr.1, some fr.2)
    else (st, none)

/-- The worker loop run over a finite list of select events, collecting the
reports of the flushes it performed, in order. -/
def loopRun (hash : Payload → List Nat) (atk : Nat → Bool)
    (size interval : Nat) (st : LoopState) :
    List LoopEvent → LoopState × List FlushReport
  | [] => (st, [])
  | ev :: evs =>
    let sr := loopStep hash atk size interval st ev
    let rest := loopRun hash atk size interval sr.1 evs
    (rest.1, match sr.2 with
             | some r => r :: rest.2
             | none => rest.2)

/-- The worker's state when the loop starts (lines 82-85): `lastFlush =
time.Now()` (`t0`), `bufferSize = 0`. -/
def loopInit (t0 : Nat) : LoopState := { lastFlush := t0, buffer := [] }

/-! ## Shutdown coordination (`close`, lines 172-178, and the worker's
deferred exit path, lines 140-144)

`close` runs `close(wb.buffer); wb.flushTicker.Stop(); <-wb.doneCh;
return wb.writer.Close()`.  The worker, once the inbound channel reports
closed (`ok = false`, line 149), returns from the loop and its deferred
function runs `wb.flushTicker.Stop(); flush(); close(wb.doneCh)`.
We model the two goroutines as explicit program counters driven by an
arbitrary schedule, and the synchronisation through the two channels by
enabledness conditions: the worker's exit is enabled only once the inbound
channel is closed, and the closer's `<-wb.doneCh` is enabled only once the
worker has closed `doneCh`.  Ticker stops are not observable events of the
claims and are folded into the adjacent steps. -/

/-- The shutdown events a claim observes, in the trace they form. -/
inductive ShutEv where
  | closeInbound
  | finalFlush (r : FlushReport)
  | signalDone
  | closeBroker
  deriving Repr, DecidableEq

/-- Joint state of the worker goroutine and the `close` caller.
The worker program counter `wpc`: `0` = blocked in `select` until the
inbound channel is closed; `1` = returned from the loop (deferred ticker
stop done), about to `flush()`; `2` = about to `close(wb.doneCh)`;
`3` = goroutine finished.  The closer program counter `cpc`: `0` = about to
`close(wb.buffer)` (with its ticker stop); `1` = blocked on `<-wb.doneCh`;
`2` = about to `wb.writer.Close()`; `3` = returned. -/
structure ShutState where
  wpc : Nat
  cpc : Nat
  bufClosed : Bool
  doneClosed : Bool
  trace : List ShutEv
  ret : Option (Option String)
  deriving Repr, DecidableEq

/-- The initial shutdown state: both threads at their first step, no channel
closed, nothing returned. -/
def shutInit : ShutState :=
  { wpc := 0, cpc := 0, bufClosed := false, doneClosed := false,
    trace := [], ret := none }

/-- One scheduler step: `true` runs the worker goroutine, `false` the caller
of `close`.  A thread whose next action is not enabled (a blocked channel
receive) leaves the state unchanged.  `wst`/`tf` are the worker's
accumulation state and the time of its final flush; `brokerErr` is the value
`wb.writer.Close()` returns. -/
def shutStep (hash : Payload → List Nat) (atk : Nat → Bool)
    (wst : LoopState) (tf : Nat) (brokerErr : Option String)
    (s : ShutState) : Bool → ShutState
  | true =>
    match s.wpc with
    | 0 => if s.bufClosed then { s with wpc := 1 } else s
    | 1 => { s with wpc := 2
                    trace := s.trace ++ [.finalFlush (flush hash atk wst tf).2] }
    | 2 => { s with wpc := 3
                    doneClosed := true
                    trace := s.trace ++ [.signalDone] }
    | _ => s
  | false =>
    match s.cpc with
    | 0 => { s with cpc := 1
                    bufClosed := true
                    trace := s.trace ++ [.closeInbound] }
    | 1 => if s.doneClosed then { s with cpc := 2 } else s
    | 2 => { s with cpc := 3
                    ret := some brokerErr
                    trace := s.trace ++ [.closeBroker] }
    | _ => s

/-- The shutdown system run under an arbitrary finite schedule. -/
def shutRun (hash : Payload → List Nat) (atk : Nat → Bool)
    (wst : LoopState) (tf : Nat) (brokerErr : Option String)
    (s : ShutState) : List Bool → ShutState
  | [] => s
  | b :: sched =>
    shutRun hash atk wst tf brokerErr
      (shutStep hash atk wst tf brokerErr s b) sched

/-! ## Go channel semantics for misuse (`Write`, line 74-76, and `close`,
lines 172-178)

`Write` does `wb.buffer <- &msg`; `close` does `close(wb.buffer)`.  Per the
Go language specification, a send on a closed channel panics, and closing a
closed channel panics; neither returns an error value.  Panics are modelled
as `none`. -/

/-- A Go buffered channel: its closed flag and queued elements. -/
structure GoChan (α : Type) where
  closed : Bool
  queue : List α
  deriving Repr, DecidableEq

/-- Send `ch <- x`: panics (`none`) if the channel is closed, else enqueues. -/
def chanSend {α : Type} (c : GoChan α) (x : α) : Option (GoChan α) :=
  if c.closed then none else some { c with queue := c.queue ++ [x] }

/-- Closing `close(ch)`: panics (`none`) if the channel is already closed. -/
def chanClose {α : Type} (c : GoChan α) : Option (GoChan α) :=
  if c.closed then none else some { c with closed := true }

/-- The `bufferedWriter` fields the misuse claims touch: its inbound
channel `buffer` (line 31). -/
structure BufferedWriterCh where
  buffer : GoChan Payload
  deriving Repr, DecidableEq

/-- Method `Write` (lines 74-76): `wb.buffer <- &msg`.  `none` is a panic; there is
no error return. -/
def bwWrite (wb : BufferedWriterCh) (msg : Payload) : Option BufferedWriterCh :=
  (chanSend wb.buffer msg).map (fun b => { buffer := b })

/-- The first action of `close` (line 174): `close(wb.buffer)`.  `none` is a
panic; the misuse path never reaches the `return`. -/
def bwCloseInbound (wb : BufferedWriterCh) : Option BufferedWriterCh :=
  (chanClose wb.buffer).map (fun b => { buffer := b })

/-! ## Helper lemmas -/

lemma flush_buffer_eq_nil (hash : Payload → List Nat) (atk : Nat → Bool)
    (st : LoopState) (now : Nat) : ((flush hash atk st now).1).buffer = [] := by
  unfold flush
  split
  · next h => simpa using List.length_eq_zero.mp h
  · rfl

lemma flush_lastFlush_eq (hash : Payload → List Nat) (atk : Nat → Bool)
    (st : LoopState) (now : Nat) : ((flush hash atk st now).1).lastFlush = now := by
  unfold flush
  split <;> rfl

lemma retryLoop_allFail (batch : List KafkaMessage) :
    ∀ (n icnt : Nat) (e : Bool), n ≠ 0 →
      retryLoop (fun _ => false) batch icnt n e
        = ((List.replicate n [FlushEv.publish batch,
            FlushEv.sleepMs defaultWriteRetrySleepMs]).flatten, false) := by
  intro n
  induction n with
  | zero => intro icnt e h; exact absurd rfl h
  | succ m ih =>
    intro icnt e _
    by_cases hm : m = 0
    · subst hm; simp [retryLoop]
    · simp [retryLoop, ih (icnt + 1) false hm, List.replicate_succ]

lemma publishCalls_replicate_join (batch : List KafkaMessage) (d : Nat) :
    ∀ n, publishCalls
        ((List.replicate n [FlushEv.publish batch, FlushEv.sleepMs d]).flatten)
      = List.replicate n batch := by
  intro n
  induction n with
  | zero => rfl
  | succ m ih => simp [List.replicate_succ, publishCalls, ih]

lemma publishCalls_retryLoop (atk : Nat → Bool) (batch : List KafkaMessage) :
    ∀ (n icnt : Nat) (e : Bool) (c : List KafkaMessage),
      c ∈ publishCalls (retryLoop atk batch icnt n e).1 → c = batch := by
  intro n
  induction n with
  | zero =>
    intro icnt e c hc
    simp [retryLoop, publishCalls] at hc
  | succ m ih =>
    intro icnt e c hc
    by_cases h : atk icnt
    · simp [retryLoop, h, publishCalls] at hc
      exact hc
    · simp only [retryLoop, h, if_false, Bool.false_eq_true, publishCalls,
        List.mem_cons] at hc
      rcases hc with hc | hc
      · exact hc
      · exact ih (icnt + 1) false c hc

lemma flush_publishCalls_eq (hash : Payload → List Nat) (atk : Nat → Bool)
    (st : LoopState) (now : Nat) (c : List KafkaMessage)
    (hc : c ∈ publishCalls ((flush hash atk st now).2.trace)) :
    c = st.buffer.map (mkMessage hash) := by
  by_cases h0 : st.buffer.length = 0
  · unfold flush at hc
    rw [if_pos h0] at hc
    simp [publishCalls] at hc
  · unfold flush at hc
    rw [if_neg h0] at hc
    exact publishCalls_retryLoop atk _ defaultWriteRetry 0 true c hc

lemma loopStep_buffer_length_le (hash : Payload → List Nat) (atk : Nat → Bool)
    (size interval : Nat) (hsz : 1 ≤ size)
    (st : LoopState) (ev : LoopEvent) (hle : st.buffer.length ≤ size) :
    ((loopStep hash atk size interval st ev).1).buffer.length ≤ size := by
  cases ev with
  | recv msg now =>
    by_cases hfull : size ≤ st.buffer.length
    · simpa [loopStep, hfull, flush_buffer_eq_nil] using hsz
    · simp only [loopStep, hfull, if_false]
      simp only [List.length_append, List.length_cons, List.length_nil]
      omega
  | tick now =>
    by_cases ht : st.lastFlush + interval < now
    · simp [loopStep, ht, flush_buffer_eq_nil]
    · simpa [loopStep, ht] using hle

lemma loopRun_buffer_length_le (hash : Payload → List Nat) (atk : Nat → Bool)
    (size interval : Nat) (hsz : 1 ≤ size) :
    ∀ (evs : List LoopEvent) (st : LoopState), st.buffer.length ≤ size →
      ((loopRun hash atk size interval st evs).1).buffer.length ≤ size := by
  intro evs
  induction evs with
  | nil => intro st h; exact h
  | cons ev evs ih =>
    intro st h
    exact ih _ (loopStep_buffer_length_le hash atk size interval hsz st ev h)

/-! ## Claim theorems -/

/-- C7: a `flush` invoked on an empty accumulation buffer is a no-op towards
the broker and telemetry — its trace has no publish call and no sleep, no
counter is incremented and no duration is observed — while `lastFlush` is
still advanced to the current time by the deferred assignment. -/
theorem flush_empty_noop (hash : Payload → List Nat) (atk : Nat → Bool)
    (st : LoopState) (now : Nat) (h : st.buffer = []) :
    flush hash atk st now
      = ({ lastFlush := now, buffer := [] },
         { trace := [], succInc := 0, failInc := 0, millisObserved := false }) := by
  obtain ⟨lf, buf⟩ := st
  simp only at h
  subst h
  rfl

/-- Witness for C7 at a concrete empty state. -/
theorem flush_empty_noop_witness :
    flush (fun l => l) (fun _ => false) (loopInit 5) 9
      = ({ lastFlush := 9, buffer := [] },
         { trace := [], succInc := 0, failInc := 0, millisObserved := false }) :=
  flush_empty_noop (fun l => l) (fun _ => false) (loopInit 5) 9 rfl

/-- C5: on a ticker tick the worker invokes `flush` exactly when
`time.Now().After(lastFlush.Add(flushInterval))`, i.e. when strictly more
than one flush interval has elapsed since the last flush; a tick within one
interval of the previous flush leaves the state unchanged and performs no
flush. -/
theorem tick_flush_guard (hash : Payload → List Nat) (atk : Nat → Bool)
    (size interval : Nat) (st : LoopState) (now : Nat) :
    ((loopStep hash atk size interval st (.tick now)).2 ≠ none
        ↔ st.lastFlush + interval < now)
    ∧ (¬ st.lastFlush + interval < now →
        loopStep hash atk size interval st (.tick now) = (st, none)) := by
  by_cases ht : st.lastFlush + interval < now <;> simp [loopStep, ht]

/-- Witness for C5: a tick exactly one interval after the last flush does not
flush. -/
theorem tick_flush_guard_witness :
    loopStep (fun l => l) (fun _ => true) 2 1000 (loopInit 0)
        (.tick 1000) = (loopInit 0, none) :=
  (tick_flush_guard (fun l => l) (fun _ => true) 2 1000 (loopInit 0) 1000).2
    (by decide)

/-- C4: when a message is received while the accumulation buffer already
holds `size` payloads, `flush` is invoked first — publishing only the old
buffer and resetting it to empty — and the new message is then appended to
the now-empty buffer, so the buffer never exceeds the capacity `size`. -/
theorem recv_at_capacity_flush_first (hash : Payload → List Nat)
    (atk : Nat → Bool) (size interval : Nat)
    (st : LoopState) (msg : Payload) (now : Nat)
    (hcap : st.buffer.length = size) (hsz : 1 ≤ size) :
    loopStep hash atk size interval st (.recv msg now)
        = ({ lastFlush := now, buffer := [msg] }, some (flush hash atk st now).2)
    ∧ ((flush hash atk st now).1).buffer = []
    ∧ (∀ c ∈ publishCalls ((flush hash atk st now).2.trace),
        c = st.buffer.map (mkMessage hash))
    ∧ ({ lastFlush := now, buffer := [msg] } : LoopState).buffer.length ≤ size := by
  have hfull : size ≤ st.buffer.length := le_of_eq hcap.symm
  refine ⟨?_, flush_buffer_eq_nil hash atk st now,
    fun c hc => flush_publishCalls_eq hash atk st now c hc, by simpa using hsz⟩
  simp [loopStep, hfull, flush_buffer_eq_nil, flush_lastFlush_eq]

/-- Witness for C4 at capacity 2 with a full buffer. -/
theorem recv_at_capacity_flush_first_witness :
    loopStep (fun l => l) (fun _ => true) 2 1000
        { lastFlush := 0, buffer := [[1], [2]] } (.recv [3] 7)
      = ({ lastFlush := 7, buffer := [[3]] },
         some (flush (fun l => l) (fun _ => true)
            { lastFlush := 0, buffer := [[1], [2]] } 7).2) :=
  (recv_at_capacity_flush_first (fun l => l) (fun _ => true) 2 1000
    { lastFlush := 0, buffer := [[1], [2]] } [3] 7 (by decide) (by decide)).1

/-- C8: every `wb.writer.WriteMessages` call a flush makes submits the whole
batch `buffer2[:bufferSize]` — each accumulated payload with its key — so a
batch is never split and no proper subset is ever submitted alone. -/
theorem flush_batch_atomicity (hash : Payload → List Nat) (atk : Nat → Bool)
    (st : LoopState) (now : Nat) (c : List KafkaMessage)
    (hc : c ∈ publishCalls ((flush hash atk st now).2.trace)) :
    c = st.buffer.map (mkMessage hash) :=
  flush_publishCalls_eq hash atk st now c hc

/-- Witness for C8: the single publish call of a concrete successful flush
carries the full two-payload batch. -/
theorem flush_batch_atomicity_witness :
    [mkMessage (fun l => l) [5], mkMessage (fun l => l) [6]]
      = ([[5], [6]] : List Payload).map (mkMessage (fun l => l)) :=
  flush_batch_atomicity (fun l => l) (fun _ => true)
    { lastFlush := 0, buffer := [[5], [6]] } 3
    [mkMessage (fun l => l) [5], mkMessage (fun l => l) [6]] (by decide)

/-- C2: a flush of a non-empty buffer against an always-failing broker makes
exactly `defaultWriteRetry = 10` publish attempts, sleeping
`defaultWriteRetrySleep = 1s` after each failed attempt (hence between any
two consecutive attempts), and afterwards the failure counter is incremented
by exactly one for the failed batch while the success counter is not
incremented. -/
theorem flush_bounded_retry (hash : Payload → List Nat) (st : LoopState)
    (now : Nat) (h : st.buffer ≠ []) :
    (flush hash (fun _ => false) st now).2.trace
        = (List.replicate defaultWriteRetry
            [FlushEv.publish (st.buffer.map (mkMessage hash)),
             FlushEv.sleepMs defaultWriteRetrySleepMs]).flatten
    ∧ (publishCalls (flush hash (fun _ => false) st now).2.trace).length
        = defaultWriteRetry
    ∧ (flush hash (fun _ => false) st now).2.failInc = 1
    ∧ (flush hash (fun _ => false) st now).2.succInc = 0 := by
  have hlen : ¬ st.buffer.length = 0 := by
    simpa [List.length_eq_zero] using h
  have hr := retryLoop_allFail (st.buffer.map (mkMessage hash))
    defaultWriteRetry 0 true (by decide)
  unfold flush
  rw [if_neg hlen]
  simp [hr, successFailDelta, publishCalls_replicate_join]

/-- Witness for C2 at a concrete one-payload buffer. -/
theorem flush_bounded_retry_witness :
    (publishCalls (flush (fun l => l) (fun _ => false)
        { lastFlush := 0, buffer := [[97]] } 4).2.trace).length
      = defaultWriteRetry
    ∧ (flush (fun l => l) (fun _ => false)
        { lastFlush := 0, buffer := [[97]] } 4).2.failInc = 1
    ∧ (flush (fun l => l) (fun _ => false)
        { lastFlush := 0, buffer := [[97]] } 4).2.succInc = 0 :=
  (flush_bounded_retry (fun l => l) { lastFlush := 0, buffer := [[97]] } 4
    (by decide)).2

/-- C9: the message key attached at flush time (lines 98-101) is the digest
of the payload's bytes, so payloads with identical bytes receive identical
keys, and — digest collisions being out of scope, i.e. assuming the digest
injective — payloads differing in any byte receive different keys. -/
theorem flush_key_determinism (hash : Payload → List Nat)
    (hcf : Function.Injective hash) (p q : Payload) :
    (mkMessage hash p).key = hash p
    ∧ (p = q → (mkMessage hash p).key = (mkMessage hash q).key)
    ∧ (p ≠ q → (mkMessage hash p).key ≠ (mkMessage hash q).key) :=
  ⟨rfl, fun hpq => by rw [hpq], fun hne hk => hne (hcf hk)⟩

/-- Witness for C9 with a concrete injective digest and distinct payloads. -/
theorem flush_key_determinism_witness :
    (mkMessage (fun l => l) [0]).key = [0]
    ∧ (mkMessage (fun l => l) [0]).key ≠ (mkMessage (fun l => l) [1]).key :=
  ⟨(flush_key_determinism (fun l => l) (fun _ _ hab => hab) [0] [1]).1,
   (flush_key_determinism (fun l => l) (fun _ _ hab => hab) [0] [1]).2.2
     (by decide)⟩

/-- C10: once `close` has closed the inbound channel, a `Write` — a send on
that closed channel — panics, and a second `close` — closing the already
closed channel — panics as well; neither misuse path returns an error value
(the panic `none` is not an error return). -/
theorem write_after_close_panics (wb : BufferedWriterCh) (msg : Payload)
    (h : wb.buffer.closed = false) :
    ∃ wb', bwCloseInbound wb = some wb'
      ∧ bwWrite wb' msg = none
      ∧ bwCloseInbound wb' = none := by
  refine ⟨{ buffer := { closed := true, queue := wb.buffer.queue } }, ?_, ?_, ?_⟩
  · simp [bwCloseInbound, chanClose, h]
  · simp [bwWrite, chanSend]
  · simp [bwCloseInbound, chanClose]

/-- Witness for C10 at a concrete open writer. -/
theorem write_after_close_panics_witness :
    ∃ wb', bwCloseInbound { buffer := { closed := false, queue := [] } } = some wb'
      ∧ bwWrite wb' [0] = none
      ∧ bwCloseInbound wb' = none :=
  write_after_close_panics { buffer := { closed := false, queue := [] } } [0] rfl

/-- C6: the invariant `0 ≤ bufferSize ≤ capacity` (trivially `0 ≤` over `Nat`)
holds at every point of the worker's execution: `bufferSize` starts at `0`,
every flush — failed or empty ones included — leaves it at `0`, and both a
single loop iteration and any finite run of iterations preserve
`bufferSize ≤ size`. -/
theorem buffer_size_invariant (hash : Payload → List Nat) (atk : Nat → Bool)
    (size interval : Nat) (hsz : 1 ≤ size) :
    (∀ t0 : Nat, (loopInit t0).buffer.length = 0)
    ∧ (∀ (st : LoopState) (now : Nat),
        ((flush hash atk st now).1).buffer.length = 0)
    ∧ (∀ (st : LoopState) (ev : LoopEvent), st.buffer.length ≤ size →
        ((loopStep hash atk size interval st ev).1).buffer.length ≤ size)
    ∧ (∀ (evs : List LoopEvent) (st : LoopState), st.buffer.length ≤ size →
        ((loopRun hash atk size interval st evs).1).buffer.length ≤ size) :=
  ⟨fun _ => rfl,
   fun st now => by rw [flush_buffer_eq_nil]; rfl,
   fun st ev h => loopStep_buffer_length_le hash atk size interval hsz st ev h,
   fun evs st h => loopRun_buffer_length_le hash atk size interval hsz evs st h⟩

/-- Witness for C6: a three-message run at capacity 2 keeps the buffer within
capacity. -/
theorem buffer_size_invariant_witness :
    ((loopRun (fun l => l) (fun _ => true) 2 1000 (loopInit 0)
        [.recv [0] 0, .recv [1] 0, .recv [2] 0]).1).buffer.length ≤ 2 :=
  (buffer_size_invariant (fun l => l) (fun _ => true) 2 1000 (by decide)).2.2.2
    [.recv [0] 0, .recv [1] 0, .recv [2] 0] (loopInit 0) (by decide)

set_option maxRecDepth 4000 in
/-- C3: with capacity 2, flush interval 1s and an always-succeeding broker,
writing "a", "b", "c" publishes a first capacity-triggered batch ["a","b"]
before "c" is accepted into the buffer (after the first three events the
buffer holds exactly ["c"] and the only batch published so far is ["a","b"]),
and a tick strictly more than one interval later publishes the
timer-triggered batch ["c"]; the success counter has then been incremented
once per batch, totalling 2. -/
theorem scenario_capacity_two (hash : Payload → List Nat) :
    ((loopRun hash (fun _ => true) 2 defaultBufferedWriterFlushIntervalMs
        (loopInit 0) [.recv [97] 0, .recv [98] 0, .recv [99] 0]).2.map
          (fun r => (publishCalls r.trace).map (fun c => c.map (fun m => m.value))))
      = [[[[97], [98]]]]
    ∧ (loopRun hash (fun _ => true) 2 defaultBufferedWriterFlushIntervalMs
        (loopInit 0) [.recv [97] 0, .recv [98] 0, .recv [99] 0]).1.buffer
      = [[99]]
    ∧ ((loopRun hash (fun _ => true) 2 defaultBufferedWriterFlushIntervalMs
        (loopInit 0)
        [.recv [97] 0, .recv [98] 0, .recv [99] 0, .tick 1001]).2.map
          (fun r => (publishCalls r.trace).map (fun c => c.map (fun m => m.value))))
      = [[[[97], [98]]], [[[99]]]]
    ∧ ((loopRun hash (fun _ => true) 2 defaultBufferedWriterFlushIntervalMs
        (loopInit 0)
        [.recv [97] 0, .recv [98] 0, .recv [99] 0, .tick 1001]).2.map
          (fun r => r.succInc)).sum = 2 :=
  ⟨rfl, rfl, rfl, rfl⟩

/-! ## Shutdown ordering: invariant over all interleavings -/

/-- The shutdown trace determined by the two program counters: each of the
four events has been emitted exactly when its thread has passed the emitting
step, and the synchronisation constraints below pin their relative order. -/
def canonShutTrace (r : FlushReport) (w c : Nat) : List ShutEv :=
  (if 1 ≤ c then [ShutEv.closeInbound] else [])
    ++ (if 2 ≤ w then [ShutEv.finalFlush r] else [])
    ++ (if 3 ≤ w then [ShutEv.signalDone] else [])
    ++ (if 3 ≤ c then [ShutEv.closeBroker] else [])

/-- The inductive invariant of the shutdown system: the channel flags mirror
the program counters, the worker cannot have left its `select` before the
inbound channel was closed, the closer cannot have passed `<-wb.doneCh`
before the worker signalled, the trace is the canonical one, and the return
value is produced exactly by the last closer step. -/
def ShutInv (r : FlushReport) (brokerErr : Option String) (s : ShutState) : Prop :=
  s.wpc ≤ 3 ∧ s.cpc ≤ 3
    ∧ s.bufClosed = decide (1 ≤ s.cpc)
    ∧ s.doneClosed = decide (3 ≤ s.wpc)
    ∧ (1 ≤ s.wpc → 1 ≤ s.cpc)
    ∧ (2 ≤ s.cpc → 3 ≤ s.wpc)
    ∧ s.trace = canonShutTrace r s.wpc s.cpc
    ∧ s.ret = (if 3 ≤ s.cpc then some brokerErr else none)

lemma shutInit_inv (r : FlushReport) (brokerErr : Option String) :
    ShutInv r brokerErr shutInit := by
  simp [ShutInv, shutInit, canonShutTrace]

lemma shutStep_preserves (hash : Payload → List Nat) (atk : Nat → Bool)
    (wst : LoopState) (tf : Nat) (brokerErr : Option String)
    (s : ShutState) (b : Bool)
    (h : ShutInv (flush hash atk wst tf).2 brokerErr s) :
    ShutInv (flush hash atk wst tf).2 brokerErr
      (shutStep hash atk wst tf brokerErr s b) := by
  obtain ⟨w, c, bc, dc, tr, ret⟩ := s
  obtain ⟨hw, hc, hbc, hdc, hwc, hcw, htr, hret⟩ := h
  simp only at hw hc hbc hdc hwc hcw htr hret
  cases b
  · interval_cases c <;> interval_cases w <;>
      simp_all [shutStep, ShutInv, canonShutTrace]
  · interval_cases w <;> interval_cases c <;>
      simp_all [shutStep, ShutInv, canonShutTrace]

lemma shutRun_inv (hash : Payload → List Nat) (atk : Nat → Bool)
    (wst : LoopState) (tf : Nat) (brokerErr : Option String) :
    ∀ (sched : List Bool) (s : ShutState),
      ShutInv (flush hash atk wst tf).2 brokerErr s →
      ShutInv (flush hash atk wst tf).2 brokerErr
        (shutRun hash atk wst tf brokerErr s sched) := by
  intro sched
  induction sched with
  | nil => intro s h; exact h
  | cons b sc ih =>
    intro s h
    exact ih _ (shutStep_preserves hash atk wst tf brokerErr s b h)

lemma canonShutTrace_prefix (r : FlushReport) (w c : Nat)
    (hw : w ≤ 3) (hc : c ≤ 3) (h1 : 1 ≤ w → 1 ≤ c) (h2 : 2 ≤ c → 3 ≤ w) :
    canonShutTrace r w c <+:
      [ShutEv.closeInbound, ShutEv.finalFlush r,
       ShutEv.signalDone, ShutEv.closeBroker] := by
  interval_cases w <;> interval_cases c <;>
    first
      | exact ⟨_, rfl⟩
      | exact absurd (h1 (by omega)) (by omega)

/-- C1: under every interleaving of the worker goroutine and the caller of
`close`, the observable shutdown events happen in the order: the inbound
channel is closed, then the worker performs its final flush (whose report is
that of `flush` on its remaining accumulation state) and signals completion
on `doneCh`, and only then is the broker connection closed — the trace is
always a prefix of that sequence; moreover `close` returns nothing other
than the broker connection close error, and once it has returned, the
return value is exactly that error and all four events have occurred in
order. -/
theorem close_shutdown_ordering (hash : Payload → List Nat) (atk : Nat → Bool)
    (wst : LoopState) (tf : Nat) (brokerErr : Option String)
    (sched : List Bool) :
    (shutRun hash atk wst tf brokerErr shutInit sched).trace <+:
        [ShutEv.closeInbound, ShutEv.finalFlush (flush hash atk wst tf).2,
         ShutEv.signalDone, ShutEv.closeBroker]
    ∧ ((shutRun hash atk wst tf brokerErr shutInit sched).ret = none
        ∨ (shutRun hash atk wst tf brokerErr shutInit sched).ret
            = some brokerErr)
    ∧ ((shutRun hash atk wst tf brokerErr shutInit sched).ret ≠ none →
        (shutRun hash atk wst tf brokerErr shutInit sched).ret = some brokerErr
        ∧ (shutRun hash atk wst tf brokerErr shutInit sched).trace
            = [ShutEv.closeInbound, ShutEv.finalFlush (flush hash atk wst tf).2,
               ShutEv.signalDone, ShutEv.closeBroker]) := by
  have hinv := shutRun_inv hash atk wst tf brokerErr sched shutInit
    (shutInit_inv _ brokerErr)
  set s := shutRun hash atk wst tf brokerErr shutInit sched with hs
  clear_value s
  obtain ⟨hw, hc, hbc, hdc, hwc, hcw, htr, hret⟩ := hinv
  refine ⟨?_, ?_, ?_⟩
  · rw [htr]
    exact canonShutTrace_prefix _ s.wpc s.cpc hw hc hwc hcw
  · by_cases h3 : 3 ≤ s.cpc
    · right; rw [hret, if_pos h3]
    · left; rw [hret, if_neg h3]
  · intro hne
    by_cases h3 : 3 ≤ s.cpc
    · have hw3 : 3 ≤ s.wpc := hcw (by omega)
      have hc3 : s.cpc = 3 := by omega
      have hw3e : s.wpc = 3 := by omega
      refine ⟨by rw [hret, if_pos h3], ?_⟩
      rw [htr, hw3e, hc3]
      rfl
    · exact absurd (by rw [hret, if_neg h3]) hne

/-- Witness for C1: a complete concrete shutdown run returns the broker
close error after the full event sequence. -/
theorem close_shutdown_ordering_witness :
    (shutRun (fun l => l) (fun _ => true) (loopInit 0) 0 none shutInit
        [false, true, true, true, false, false]).ret ≠ none
    ∧ (shutRun (fun l => l) (fun _ => true) (loopInit 0) 0 none shutInit
        [false, true, true, true, false, false]).ret = some none := by
  refine ⟨by decide, ?_⟩
  exact ((close_shutdown_ordering (fun l => l) (fun _ => true) (loopInit 0) 0
    none [false, true, true, true, false, false]).2.2 (by decide)).1

end WriteBuffer

